import Mathlib

/-!
Shallow embedding of the storage-management Flask application (`src/app.py`).

The database is modelled as a `Store` of three tables (plates, inbound queue,
transactions); each route handler becomes a pure function from a store and the
request data to either an error message or an updated store.  Python integers
are `Int`; SQL rows are structures; `filter_by(...).first()` is `List.find?`;
mutating the row found by `.first()` is an update of the first matching list
element.
-/

namespace StorageApp

/-- A row of the `plates` table (`Plate` model): size is unique, default
quantity 0, default threshold 50. -/
structure Plate where
  size : String
  quantity : Int
  threshold : Int
deriving DecidableEq

/-- A row of the `inbound_queue` table (`InboundQueue` model): a delivery,
with a unique `batch_id` and status `pending` / `approved` / `rejected`. -/
structure InboundDelivery where
  plate_size : String
  quantity : Int
  batch_id : String
  status : String
  boxes : Option Int
  plates_per_box : Option Int
deriving DecidableEq

/-- A row of the `transactions` table (`Transaction` model); `type` is
`in` or `out`, `source` is `qr` or `manual`. -/
structure Transaction where
  plate_size : String
  quantity : Int
  type : String
  source : String
  batch_id : Option String
  notes : Option String
deriving DecidableEq

/-- The whole database state. -/
structure Store where
  plates : List Plate
  inbound : List InboundDelivery
  transactions : List Transaction
deriving DecidableEq

deriving instance DecidableEq for Except

/-- The lookup `Plate.query.filter_by(size=size).first()`. -/
def findPlate (ps : List Plate) (size : String) : Option Plate :=
  ps.find? (fun p => p.size == size)

/-- The registry quantity recorded for a size (0 when the plate is absent). -/
def plateQty (ps : List Plate) (size : String) : Int :=
  match findPlate ps size with
  | some p => p.quantity
  | none => 0

/-- Mutating the quantity of the plate row returned by `.first()`:
update the first plate of the given size. -/
def updateFirstPlate (ps : List Plate) (size : String) (f : Int → Int) : List Plate :=
  match ps with
  | [] => []
  | p :: rest =>
    if p.size == size then { p with quantity := f p.quantity } :: rest
    else p :: updateFirstPlate rest size f

/-- The lookup `InboundQueue.query.filter_by(batch_id=b, status=pending).first()`. -/
def findPending (ds : List InboundDelivery) (b : String) : Option InboundDelivery :=
  ds.find? (fun d => d.batch_id == b && d.status == "pending")

/-- Mutating the status of the delivery row returned by `.first()`:
update the first pending delivery with the given batch id. -/
def setStatusFirst (ds : List InboundDelivery) (b newStatus : String) :
    List InboundDelivery :=
  match ds with
  | [] => []
  | d :: rest =>
    if d.batch_id == b && d.status == "pending" then { d with status := newStatus } :: rest
    else d :: setStatusFirst rest b newStatus

/-- Python whitespace, as stripped by `str.strip()`. -/
def pySpace (c : Char) : Bool :=
  c == ' ' || c == '\t' || c == '\n' || c == '\r' || c == '\x0b' || c == '\x0c'

/-- Python `str.strip()`: drop whitespace from both ends. -/
def strip (s : String) : String :=
  ⟨((s.data.dropWhile pySpace).reverse.dropWhile pySpace).reverse⟩

/-- Split a character list at every occurrence of a separator character. -/
def splitChar (sep : Char) : List Char → List (List Char)
  | [] => [[]]
  | c :: rest =>
    if c == sep then [] :: splitChar sep rest
    else
      match splitChar sep rest with
      | [] => [[c]]
      | h :: t => (c :: h) :: t

/-- Python `s.split(sep)` for a one-character separator. -/
def pySplit (s : String) (sep : Char) : List String :=
  (splitChar sep s.data).map (fun l => ⟨l⟩)

/-- Python `c in s` for a single character. -/
def hasChar (s : String) (c : Char) : Bool :=
  s.data.any (fun d => d == c)

/-- Decimal digits to a natural number. -/
def digitsToNat (l : List Char) : Nat :=
  l.foldl (fun acc c => acc * 10 + (c.toNat - 48)) 0

/-- Python `int(s)`: optional sign after stripping whitespace, then decimal
digits; anything else raises `ValueError`, modelled as `none`. -/
def pyInt? (s : String) : Option Int :=
  match (strip s).data with
  | [] => none
  | '-' :: ds =>
    if ds.isEmpty then none
    else if ds.all Char.isDigit then some (-(digitsToNat ds : Int)) else none
  | '+' :: ds =>
    if ds.isEmpty then none
    else if ds.all Char.isDigit then some ((digitsToNat ds : Int)) else none
  | ds => if ds.all Char.isDigit then some ((digitsToNat ds : Int)) else none

/-- The size-format regex check: digits, a single literal `x`, digits. -/
def isSizeFormat (s : String) : Bool :=
  match splitChar 'x' s.data with
  | [a, b] => !a.isEmpty && !b.isEmpty && a.all Char.isDigit && b.all Char.isDigit
  | _ => false

/-- Whether `pat` occurs at the head of a character list. -/
def leadsWith : List Char → List Char → Bool
  | [], _ => true
  | _ :: _, [] => false
  | a :: as, b :: bs => a == b && leadsWith as bs

/-- Whether `pat` occurs anywhere in a character list. -/
def containsSeq (pat : List Char) : List Char → Bool
  | [] => leadsWith pat []
  | c :: rest => leadsWith pat (c :: rest) || containsSeq pat rest

/-- Python substring containment `pat in s`. -/
def strContains (s pat : String) : Bool :=
  containsSeq pat.data s.data

/-- Route `POST /api/inbound` (`process_qr`): parse a pipe-separated intake record
`plate|boxes|plates_per_box|pallet_id`, validate it, auto-create the plate at
quantity 0 / threshold 50 when absent, and append one pending delivery.
No transaction is written. -/
def process_qr (st : Store) (raw : String) : Except String Store :=
  let q := strip raw
  if hasChar q '|' then
    match pySplit q '|' with
    | [p0, p1, p2, p3] =>
      let plate_size := strip p0
      match pyInt? p1, pyInt? p2 with
      | some boxes, some ppb =>
        let pallet_id := strip p3
        if pallet_id = "" then Except.error "UQID (pallet ID) cannot be empty"
        else if boxes ≤ 0 ∨ ppb ≤ 0 then Except.error "PQ and BQ must be positive numbers"
        else
          let total_qty := boxes * ppb
          if ¬ isSizeFormat plate_size then
            Except.error ("Invalid plate size format: " ++ plate_size)
          else if (st.inbound.find? (fun d => d.batch_id == pallet_id)).isSome then
            Except.error "Pallet ID already exists"
          else
            let plates1 :=
              if (findPlate st.plates plate_size).isSome then st.plates
              else st.plates ++ [⟨plate_size, 0, 50⟩]
            Except.ok
              { plates := plates1
                inbound := st.inbound ++
                  [⟨plate_size, total_qty, pallet_id, "pending", some boxes, some ppb⟩]
                transactions := st.transactions }
      | _, _ => Except.error "PQ (boxes) and BQ (plates per box) must be numbers"
    | _ => Except.error "Invalid pallet format"
  else Except.error "Legacy URL format not supported in this version"

/-- Route `POST /api/approve/<batch_id>` (`approve_delivery`): find the pending
delivery, raise (or create) the plate stock, mark the delivery approved and
append one `in`/`qr` transaction. -/
def approve_delivery (st : Store) (batch_id : String) : Except String Store :=
  match findPending st.inbound batch_id with
  | none => Except.error "Pending delivery not found"
  | some inb =>
    let plates1 :=
      if (findPlate st.plates inb.plate_size).isSome then
        updateFirstPlate st.plates inb.plate_size (fun q => q + inb.quantity)
      else st.plates ++ [⟨inb.plate_size, inb.quantity, 50⟩]
    Except.ok
      { plates := plates1
        inbound := setStatusFirst st.inbound batch_id "approved"
        transactions := st.transactions ++
          [⟨inb.plate_size, inb.quantity, "in", "qr", some batch_id, none⟩] }

/-- Route `POST /api/reject/<batch_id>` (`reject_delivery`): find the pending
delivery and mark it rejected; nothing else changes. -/
def reject_delivery (st : Store) (batch_id : String) : Except String Store :=
  match findPending st.inbound batch_id with
  | none => Except.error "Pending delivery not found"
  | some _ =>
    Except.ok { st with inbound := setStatusFirst st.inbound batch_id "rejected" }

/-- Route `POST /api/manual` (`manual_adjustment`): adjust an existing plate by
`quantity` in direction `adj_type` (`in` adds, anything else subtracts), with
a stock-availability check only for `out`, and append one `manual`
transaction. -/
def manual_adjustment (st : Store) (plate_size : String) (quantity : Int)
    (adj_type : String) (notes : String) : Except String Store :=
  match findPlate st.plates plate_size with
  | none => Except.error "Plate not found"
  | some plate =>
    if adj_type == "out" ∧ plate.quantity < quantity then
      Except.error "Not enough stock available"
    else
      let f := fun q : Int => if adj_type == "in" then q + quantity else q - quantity
      Except.ok
        { plates := updateFirstPlate st.plates plate_size f
          inbound := st.inbound
          transactions := st.transactions ++
            [⟨plate_size, quantity, adj_type, "manual", none, some notes⟩] }

/-- Outcome of one loop iteration of `import_csv`: the line was silently
skipped (blank or header), failed validation with an error message, or was
added to the session (new store, plus the pallet id recorded in
`processed_ids`). -/
inductive LineOutcome where
  | skipped
  | failed (msg : String)
  | added (st : Store) (pallet_id : String)
deriving DecidableEq

/-- The header test of `import_csv`: the (stripped) line contains both the
literal column markers `WxL` and `PQ`. -/
def isHeader (line : String) : Bool :=
  strContains line "WxL" && strContains line "PQ"

/-- The body of the `for line_num, line in enumerate(lines, 1)` loop of
`import_csv`: per-line validation and session insertion. -/
def processLine (st : Store) (processed : List String) (n : Nat) (rawLine : String) :
    LineOutcome :=
  let line := strip rawLine
  if line = "" then LineOutcome.skipped
  else if n = 1 ∧ isHeader line then LineOutcome.skipped
  else
    match pySplit line '|' with
    | [p0, p1, p2, p3] =>
      let plate_size := strip p0
      let pallet_id := strip p3
      if ¬ isSizeFormat plate_size then
        LineOutcome.failed ("Line " ++ toString n ++ ": Invalid plate size format \x27" ++
          plate_size ++ "\x27 - expected format like \x2776x254\x27")
      else
        match pyInt? (strip p1), pyInt? (strip p2) with
        | some boxes, some ppb =>
          if boxes ≤ 0 ∨ ppb ≤ 0 then
            LineOutcome.failed ("Line " ++ toString n ++ ": PQ and BQ must be positive numbers")
          else if processed.contains pallet_id then
            LineOutcome.failed ("Line " ++ toString n ++ ": Duplicate UQID \x27" ++
              pallet_id ++ "\x27 in this import")
          else if (st.inbound.find? (fun d => d.batch_id == pallet_id)).isSome then
            LineOutcome.failed ("Line " ++ toString n ++ ": UQID \x27" ++
              pallet_id ++ "\x27 already exists in database")
          else
            let plates1 :=
              if (findPlate st.plates plate_size).isSome then st.plates
              else st.plates ++ [⟨plate_size, 0, 50⟩]
            LineOutcome.added
              { plates := plates1
                inbound := st.inbound ++
                  [⟨plate_size, boxes * ppb, pallet_id, "pending", some boxes, some ppb⟩]
                transactions := st.transactions }
              pallet_id
        | _, _ =>
          LineOutcome.failed ("Line " ++ toString n ++ ": PQ and BQ must be numbers")
    | parts =>
      LineOutcome.failed ("Line " ++ toString n ++ ": Invalid format - expected 4 fields, got " ++
        toString parts.length)

/-- The result of a CSV import: committed store, count of imported lines and
ordered per-line errors. -/
structure ImportResult where
  store : Store
  imported : Nat
  errors : List (Nat × String)
deriving DecidableEq

/-- The loop of `import_csv`, threading the session state, the
`processed_ids` set, the success count and the error list. -/
def importLines (st : Store) (processed : List String) (imported : Nat)
    (errs : List (Nat × String)) (n : Nat) : List String → ImportResult
  | [] => ⟨st, imported, errs⟩
  | l :: rest =>
    match processLine st processed n l with
    | LineOutcome.skipped => importLines st processed imported errs (n + 1) rest
    | LineOutcome.failed msg => importLines st processed imported (errs ++ [(n, msg)]) (n + 1) rest
    | LineOutcome.added st1 pid =>
        importLines st1 (processed ++ [pid]) (imported + 1) errs (n + 1) rest

/-- Route `POST /api/import-csv` (`import_csv`): reject empty content, split the
stripped content into lines and run the per-line loop from line number 1. -/
def import_csv (st : Store) (csv_content : String) : Except String ImportResult :=
  if csv_content = "" then Except.error "No CSV content provided"
  else Except.ok (importLines st [] 0 [] 1 (pySplit (strip csv_content) '\n'))

/-! ## Helper lemmas -/

theorem plateQty_updateFirstPlate (ps : List Plate) (s : String) (f : Int → Int)
    (p : Plate) (h : findPlate ps s = some p) :
    plateQty (updateFirstPlate ps s f) s = f p.quantity := by
  induction ps with
  | nil => simp [findPlate] at h
  | cons hd tl ih =>
    unfold findPlate at h
    rw [List.find?_cons] at h
    cases hs : (hd.size == s) with
    | true =>
      simp only [hs] at h
      cases h
      simp [updateFirstPlate, hs, plateQty, findPlate, List.find?_cons]
    | false =>
      simp only [hs] at h
      have ih1 := ih h
      unfold updateFirstPlate
      rw [if_neg (by simp [hs])]
      unfold plateQty findPlate at ih1 ⊢
      rw [List.find?_cons, hs]
      exact ih1

theorem plateQty_append_single (ps : List Plate) (pl : Plate)
    (h : findPlate ps pl.size = none) :
    plateQty (ps ++ [pl]) pl.size = pl.quantity := by
  unfold plateQty findPlate at *
  rw [List.find?_append, h]
  simp

theorem setStatusFirst_split (l1 l2 : List InboundDelivery) (d : InboundDelivery)
    (b s : String)
    (h1 : ∀ x ∈ l1, (x.batch_id == b && x.status == "pending") = false)
    (hd : (d.batch_id == b && d.status == "pending") = true) :
    setStatusFirst (l1 ++ d :: l2) b s = l1 ++ { d with status := s } :: l2 := by
  induction l1 with
  | nil => simp [setStatusFirst, hd]
  | cons hd1 tl ih =>
    have hx := h1 hd1 (by simp)
    simp only [List.cons_append, setStatusFirst, hx]
    simp only [Bool.false_eq_true, if_false, List.cons.injEq, true_and]
    exact ih (fun x hx1 => h1 x (by simp [hx1]))

theorem findPending_split (ds : List InboundDelivery) (b : String)
    (inb : InboundDelivery) (h : findPending ds b = some inb) :
    (inb.batch_id == b && inb.status == "pending") = true ∧
    ∃ l1 l2, ds = l1 ++ inb :: l2 ∧
      ∀ x ∈ l1, (x.batch_id == b && x.status == "pending") = false := by
  unfold findPending at h
  rw [List.find?_eq_some] at h
  obtain ⟨hp, l1, l2, hds, hall⟩ := h
  refine ⟨hp, l1, l2, hds, fun x hx => ?_⟩
  have h2 := hall x hx
  revert h2
  cases (x.batch_id == b && x.status == "pending") <;> simp

/-! ## Claims -/

/-- C1: approving a pending delivery of quantity Q for size S raises the
registry quantity recorded for S by exactly Q (a plate absent from the
registry ends at quantity Q, as if created at 0 and incremented), marks that
delivery approved leaving its other fields and the rest of the queue alone,
and appends exactly one `in`/`qr` transaction of quantity Q referencing the
batch id. -/
theorem approve_pending_spec (st : Store) (B : String) (inb : InboundDelivery)
    (h : findPending st.inbound B = some inb) :
    ∃ st1, approve_delivery st B = Except.ok st1 ∧
      plateQty st1.plates inb.plate_size = plateQty st.plates inb.plate_size + inb.quantity ∧
      (∃ l1 l2, st.inbound = l1 ++ inb :: l2 ∧
        st1.inbound = l1 ++ { inb with status := "approved" } :: l2) ∧
      st1.transactions = st.transactions ++
        [⟨inb.plate_size, inb.quantity, "in", "qr", some B, none⟩] := by
  obtain ⟨hp, l1, l2, hds, hall⟩ := findPending_split st.inbound B inb h
  refine ⟨_, by unfold approve_delivery; rw [h], ?_, ?_, rfl⟩
  · cases hfp : findPlate st.plates inb.plate_size with
    | some p =>
      simp only [hfp, Option.isSome_some, if_true]
      rw [plateQty_updateFirstPlate st.plates inb.plate_size _ p hfp]
      simp [plateQty, hfp]
    | none =>
      simp only [hfp, Option.isSome_none, Bool.false_eq_true, if_false]
      have := plateQty_append_single st.plates ⟨inb.plate_size, inb.quantity, 50⟩ hfp
      simp only at this
      rw [this]
      simp [plateQty, hfp]
  · exact ⟨l1, l2, hds, by rw [hds]; exact setStatusFirst_split l1 l2 inb B "approved" hall hp⟩

/-- Witness for C1 at a concrete store with one pending delivery. -/
theorem approve_pending_spec_witness :
    ∃ st1, approve_delivery ⟨[⟨"100x200", 5, 50⟩],
        [⟨"100x200", 250, "B1", "pending", some 10, some 25⟩], []⟩ "B1" = Except.ok st1 ∧
      plateQty st1.plates "100x200" = plateQty [⟨"100x200", 5, 50⟩] "100x200" + 250 ∧
      (∃ l1 l2, [⟨"100x200", 250, "B1", "pending", some 10, some 25⟩] =
          l1 ++ (⟨"100x200", 250, "B1", "pending", some 10, some 25⟩ : InboundDelivery) :: l2 ∧
        st1.inbound = l1 ++ (⟨"100x200", 250, "B1", "approved", some 10, some 25⟩ : InboundDelivery) :: l2) ∧
      st1.transactions = [] ++ [⟨"100x200", 250, "in", "qr", some "B1", none⟩] :=
  approve_pending_spec ⟨[⟨"100x200", 5, 50⟩],
    [⟨"100x200", 250, "B1", "pending", some 10, some 25⟩], []⟩ "B1"
    ⟨"100x200", 250, "B1", "pending", some 10, some 25⟩ (by decide)

/-- C5: rejecting a pending delivery changes only that delivery and only its
status field; the plate registry and the transaction ledger are untouched. -/
theorem reject_frame (st : Store) (B : String) (inb : InboundDelivery)
    (h : findPending st.inbound B = some inb) :
    ∃ l1 l2, st.inbound = l1 ++ inb :: l2 ∧
      reject_delivery st B = Except.ok
        { plates := st.plates
          inbound := l1 ++ { inb with status := "rejected" } :: l2
          transactions := st.transactions } := by
  obtain ⟨hp, l1, l2, hds, hall⟩ := findPending_split st.inbound B inb h
  refine ⟨l1, l2, hds, ?_⟩
  unfold reject_delivery
  rw [h, hds]
  rw [setStatusFirst_split l1 l2 inb B "rejected" hall hp]

/-- Witness for C5 at a concrete store. -/
theorem reject_frame_witness :
    ∃ l1 l2, [⟨"100x200", 250, "B1", "pending", some 10, some 25⟩] =
        l1 ++ (⟨"100x200", 250, "B1", "pending", some 10, some 25⟩ : InboundDelivery) :: l2 ∧
      reject_delivery ⟨[⟨"100x200", 5, 50⟩],
          [⟨"100x200", 250, "B1", "pending", some 10, some 25⟩], []⟩ "B1" = Except.ok
        { plates := [⟨"100x200", 5, 50⟩]
          inbound := l1 ++ (⟨"100x200", 250, "B1", "rejected", some 10, some 25⟩ : InboundDelivery) :: l2
          transactions := [] } :=
  reject_frame ⟨[⟨"100x200", 5, 50⟩],
    [⟨"100x200", 250, "B1", "pending", some 10, some 25⟩], []⟩ "B1"
    ⟨"100x200", 250, "B1", "pending", some 10, some 25⟩ (by decide)

/-- C6: a manual out adjustment of quantity Q on an existing plate with
current quantity C fails with the insufficient-stock error when Q exceeds C,
so nothing is written. -/
theorem insufficient_stock (st : Store) (s notes : String) (p : Plate) (q : Int)
    (hp : findPlate st.plates s = some p) (hq : p.quantity < q) :
    manual_adjustment st s q "out" notes = Except.error "Not enough stock available" := by
  unfold manual_adjustment
  simp only [hp]
  rw [if_pos ⟨by decide, hq⟩]

/-- Witness for C6: withdrawing 9 from a plate holding 5 fails. -/
theorem insufficient_stock_witness :
    manual_adjustment ⟨[⟨"100x200", 5, 50⟩], [], []⟩ "100x200" 9 "out" "" =
      Except.error "Not enough stock available" :=
  insufficient_stock ⟨[⟨"100x200", 5, 50⟩], [], []⟩ "100x200" "" ⟨"100x200", 5, 50⟩ 9
    (by decide) (by decide)

/-- C3: a single intake record that passes every validation check creates
exactly one pending delivery of quantity `boxes * plates_per_box`, appended
to the queue; the plate is auto-created at quantity 0 / threshold 50 when the
size is unknown, and the transaction ledger is untouched. -/
theorem process_qr_success_spec (st : Store) (raw p0 p1 p2 p3 : String) (boxes ppb : Int)
    (hpipe : hasChar (strip raw) '|' = true)
    (hsplit : pySplit (strip raw) '|' = [p0, p1, p2, p3])
    (hb : pyInt? p1 = some boxes) (hp : pyInt? p2 = some ppb)
    (hid : strip p3 ≠ "")
    (hbpos : 0 < boxes) (hppos : 0 < ppb)
    (hsize : isSizeFormat (strip p0) = true)
    (hdup : st.inbound.find? (fun d => d.batch_id == strip p3) = none) :
    process_qr st raw = Except.ok
      { plates := if (findPlate st.plates (strip p0)).isSome then st.plates
                  else st.plates ++ [⟨strip p0, 0, 50⟩]
        inbound := st.inbound ++
          [⟨strip p0, boxes * ppb, strip p3, "pending", some boxes, some ppb⟩]
        transactions := st.transactions } := by
  unfold process_qr
  rw [if_pos hpipe, hsplit]
  simp only [hb, hp]
  rw [if_neg hid, if_neg (by push_neg; exact ⟨by omega, by omega⟩)]
  rw [if_neg (by simp [hsize])]
  simp [hdup]

/-- Witness for C3: the record from the spec example yields a pending
delivery of quantity 250 and auto-creates the plate at 0 / 50. -/
theorem process_qr_success_spec_witness :
    process_qr ⟨[], [], []⟩ "100x200|10|25|PLT000111" = Except.ok
      ⟨[⟨"100x200", 0, 50⟩],
       [⟨"100x200", 250, "PLT000111", "pending", some 10, some 25⟩], []⟩ := by
  have h := process_qr_success_spec ⟨[], [], []⟩ "100x200|10|25|PLT000111"
    "100x200" "10" "25" "PLT000111" 10 25 (by decide) (by decide) (by decide) (by decide)
    (by decide) (by decide) (by decide) (by decide) (by decide)
  exact h.trans (by decide)

/-- Helper for C4: once the only delivery carrying a batch id is no longer
pending, no pending lookup for that id succeeds after the status update. -/
theorem findPending_setStatusFirst_eq_none (ds : List InboundDelivery) (B s : String)
    (hs : s ≠ "pending")
    (huniq : ds.countP (fun d => d.batch_id == B) ≤ 1)
    (h : (findPending ds B).isSome = true) :
    findPending (setStatusFirst ds B s) B = none := by
  induction ds with
  | nil => simp [findPending] at h
  | cons d rest ih =>
    cases hd : (d.batch_id == B && d.status == "pending") with
    | true =>
      have hbid : (d.batch_id == B) = true := by
        cases hb : (d.batch_id == B) <;> simp [hb] at hd ⊢
      have hrest : rest.countP (fun d => d.batch_id == B) = 0 := by
        rw [List.countP_cons] at huniq
        simp only [hbid, if_true] at huniq
        omega
      have hnone : rest.find? (fun x => x.batch_id == B && x.status == "pending") = none := by
        rw [List.find?_eq_none]
        intro x hx hpx
        have := (List.countP_eq_zero.mp hrest) x hx
        exact this (by revert hpx; cases (x.batch_id == B) <;> simp)
      unfold setStatusFirst
      rw [if_pos hd]
      unfold findPending
      rw [List.find?_cons]
      have : (({ d with status := s } : InboundDelivery).batch_id == B &&
          ({ d with status := s } : InboundDelivery).status == "pending") = false := by
        simp [hbid, hs]
      rw [this]
      exact hnone
    | false =>
      unfold setStatusFirst
      rw [if_neg (by simp [hd])]
      unfold findPending at h ⊢
      rw [List.find?_cons, hd] at h
      rw [List.find?_cons, hd]
      have hle : rest.countP (fun d => d.batch_id == B) ≤
          (d :: rest).countP (fun d => d.batch_id == B) := by
        rw [List.countP_cons]
        split <;> omega
      exact ih (le_trans hle huniq) h

/-- C4: approved and rejected are terminal: after an approve or a reject of
batch id B succeeds on a store whose queue holds B at most once (the batch id
column is unique), every further approve or reject of B fails with the
not-found error, so the store can no longer change for B. -/
theorem terminal_states (st st1 : Store) (B : String)
    (huniq : st.inbound.countP (fun d => d.batch_id == B) ≤ 1)
    (h : approve_delivery st B = Except.ok st1 ∨ reject_delivery st B = Except.ok st1) :
    approve_delivery st1 B = Except.error "Pending delivery not found" ∧
    reject_delivery st1 B = Except.error "Pending delivery not found" := by
  have hinb : st1.inbound = setStatusFirst st.inbound B "approved" ∨
      st1.inbound = setStatusFirst st.inbound B "rejected" := by
    cases h with
    | inl ha =>
      unfold approve_delivery at ha
      cases hfp : findPending st.inbound B with
      | none => rw [hfp] at ha; exact absurd ha (by simp)
      | some inb =>
        rw [hfp] at ha
        left
        cases ha
        rfl
    | inr hr =>
      unfold reject_delivery at hr
      cases hfp : findPending st.inbound B with
      | none => rw [hfp] at hr; exact absurd hr (by simp)
      | some inb =>
        rw [hfp] at hr
        right
        cases hr
        rfl
  have hsome : (findPending st.inbound B).isSome = true := by
    cases h with
    | inl ha =>
      unfold approve_delivery at ha
      cases hfp : findPending st.inbound B with
      | none => rw [hfp] at ha; exact absurd ha (by simp)
      | some inb => simp [hfp]
    | inr hr =>
      unfold reject_delivery at hr
      cases hfp : findPending st.inbound B with
      | none => rw [hfp] at hr; exact absurd hr (by simp)
      | some inb => simp [hfp]
  have hnone : findPending st1.inbound B = none := by
    cases hinb with
    | inl h1 =>
      rw [h1]
      exact findPending_setStatusFirst_eq_none st.inbound B "approved" (by decide) huniq hsome
    | inr h1 =>
      rw [h1]
      exact findPending_setStatusFirst_eq_none st.inbound B "rejected" (by decide) huniq hsome
  constructor
  · unfold approve_delivery
    rw [hnone]
  · unfold reject_delivery
    rw [hnone]

/-- Witness for C4 at a concrete store: after approving B1 once, approving
and rejecting B1 both fail with the not-found error. -/
theorem terminal_states_witness :
    approve_delivery ⟨[⟨"100x200", 255, 50⟩],
        [⟨"100x200", 250, "B1", "approved", some 10, some 25⟩],
        [⟨"100x200", 250, "in", "qr", some "B1", none⟩]⟩ "B1" =
      Except.error "Pending delivery not found" ∧
    reject_delivery ⟨[⟨"100x200", 255, 50⟩],
        [⟨"100x200", 250, "B1", "approved", some 10, some 25⟩],
        [⟨"100x200", 250, "in", "qr", some "B1", none⟩]⟩ "B1" =
      Except.error "Pending delivery not found" :=
  terminal_states ⟨[⟨"100x200", 5, 50⟩],
      [⟨"100x200", 250, "B1", "pending", some 10, some 25⟩], []⟩
    ⟨[⟨"100x200", 255, 50⟩],
      [⟨"100x200", 250, "B1", "approved", some 10, some 25⟩],
      [⟨"100x200", 250, "in", "qr", some "B1", none⟩]⟩ "B1"
    (by decide) (Or.inl (by decide))

/-- C7: a record whose pallet id is already in the delivery store is
rejected by single intake with the duplicate error, and by any batch-import
line (also when the id was seen earlier in the same batch, via
`processed_ids`); a failed line carries no new store, so nothing is
mutated. -/
theorem duplicate_pallet_rejected (st : Store) (raw p0 p1 p2 p3 : String)
    (boxes ppb boxes2 ppb2 : Int)
    (hpipe : hasChar (strip raw) '|' = true)
    (hsplit : pySplit (strip raw) '|' = [p0, p1, p2, p3])
    (hne : strip raw ≠ "")
    (hb : pyInt? p1 = some boxes) (hp : pyInt? p2 = some ppb)
    (hb2 : pyInt? (strip p1) = some boxes2) (hp2 : pyInt? (strip p2) = some ppb2)
    (hid : strip p3 ≠ "")
    (hbpos : 0 < boxes) (hppos : 0 < ppb) (hbpos2 : 0 < boxes2) (hppos2 : 0 < ppb2)
    (hsize : isSizeFormat (strip p0) = true)
    (hdup : (st.inbound.find? (fun d => d.batch_id == strip p3)).isSome = true) :
    process_qr st raw = Except.error "Pallet ID already exists" ∧
    ∀ (processed : List String) (n : Nat), (n = 1 → isHeader (strip raw) = false) →
      ∃ msg, processLine st processed n raw = LineOutcome.failed msg := by
  constructor
  · unfold process_qr
    rw [if_pos hpipe, hsplit]
    simp only [hb, hp]
    rw [if_neg hid, if_neg (by push_neg; exact ⟨by omega, by omega⟩)]
    rw [if_neg (by simp [hsize]), if_pos hdup]
  · intro processed n hnh
    unfold processLine
    rw [if_neg hne]
    rw [if_neg (by rintro ⟨h1, h2⟩; rw [hnh h1] at h2; exact absurd h2 (by simp))]
    rw [hsplit]
    simp only [hb2, hp2]
    rw [if_neg (by simp [hsize])]
    rw [if_neg (by push_neg; exact ⟨by omega, by omega⟩)]
    by_cases hpr : processed.contains (strip p3) = true
    · rw [if_pos hpr]
      exact ⟨_, rfl⟩
    · rw [if_neg hpr, if_pos hdup]
      exact ⟨_, rfl⟩

/-- Witness for C7: resubmitting PLT000111 while a delivery with that batch
id exists fails in both intake paths. -/
theorem duplicate_pallet_rejected_witness :
    process_qr ⟨[⟨"100x200", 250, 50⟩],
        [⟨"100x200", 250, "PLT000111", "approved", some 10, some 25⟩], []⟩
        "100x200|10|25|PLT000111" = Except.error "Pallet ID already exists" ∧
    ∃ msg, processLine ⟨[⟨"100x200", 250, 50⟩],
        [⟨"100x200", 250, "PLT000111", "approved", some 10, some 25⟩], []⟩
        [] 1 "100x200|10|25|PLT000111" = LineOutcome.failed msg := by
  have h := duplicate_pallet_rejected ⟨[⟨"100x200", 250, 50⟩],
      [⟨"100x200", 250, "PLT000111", "approved", some 10, some 25⟩], []⟩
    "100x200|10|25|PLT000111" "100x200" "10" "25" "PLT000111" 10 25 10 25
    (by decide) (by decide) (by decide) (by decide) (by decide) (by decide) (by decide)
    (by decide) (by decide) (by decide) (by decide) (by decide) (by decide) (by decide)
  exact ⟨h.1, h.2 [] 1 (fun _ => by decide)⟩

/-- C9 (amended): the ledger insert validates nothing: a successful manual
adjustment appends one transaction carrying exactly the submitted quantity,
whatever its sign. -/
theorem ledger_append_unvalidated (st st1 : Store) (s ty notes : String) (q : Int)
    (h : manual_adjustment st s q ty notes = Except.ok st1) :
    st1.transactions = st.transactions ++ [⟨s, q, ty, "manual", none, some notes⟩] := by
  unfold manual_adjustment at h
  cases hfp : findPlate st.plates s with
  | none => rw [hfp] at h; exact absurd h (by simp)
  | some p =>
    rw [hfp] at h
    simp only at h
    by_cases hc : (ty == "out") = true ∧ p.quantity < q
    · rw [if_pos hc] at h; exact absurd h (by simp)
    · rw [if_neg hc] at h
      cases h
      rfl

/-- Witness for C9 (amended): a manual adjustment of quantity -3 appends a
transaction of quantity -3. -/
theorem ledger_append_unvalidated_witness :
    (⟨[⟨"100x200", 8, 50⟩], [],
        [⟨"100x200", -3, "out", "manual", none, some ""⟩]⟩ : Store).transactions =
      ([] : List Transaction) ++ [⟨"100x200", -3, "out", "manual", none, some ""⟩] :=
  ledger_append_unvalidated ⟨[⟨"100x200", 5, 50⟩], [], []⟩
    ⟨[⟨"100x200", 8, 50⟩], [], [⟨"100x200", -3, "out", "manual", none, some ""⟩]⟩
    "100x200" "out" "" (-3) (by decide)

/-- C9 counterexample: no non-negativity validation exists: a manual out
adjustment of quantity -3 on a stocked plate succeeds and the appended
ledger transaction has negative quantity. -/
theorem negative_ledger_counterexample :
    manual_adjustment ⟨[⟨"100x200", 5, 50⟩], [], []⟩ "100x200" (-3) "out" "" =
      Except.ok ⟨[⟨"100x200", 8, 50⟩], [],
        [⟨"100x200", -3, "out", "manual", none, some ""⟩]⟩ ∧
    (-3 : Int) < 0 := by
  exact ⟨by decide, by decide⟩

/-- C10: a manual out adjustment with negative quantity Q on an existing
plate of quantity C at least 0 passes the availability check, succeeds,
leaves the plate at C - Q (strictly more stock than before) and records an
out transaction with the negative quantity Q. -/
theorem negative_out_increases_stock (st : Store) (s notes : String) (p : Plate) (q : Int)
    (hfp : findPlate st.plates s = some p) (hq : q < 0) (hc : 0 ≤ p.quantity) :
    ∃ st1, manual_adjustment st s q "out" notes = Except.ok st1 ∧
      plateQty st1.plates s = p.quantity - q ∧
      p.quantity < plateQty st1.plates s ∧
      st1.transactions = st.transactions ++ [⟨s, q, "out", "manual", none, some notes⟩] := by
  have hcond : ¬ (("out" == "out") = true ∧ p.quantity < q) := by
    rintro ⟨_, h2⟩
    omega
  have hqty : plateQty (updateFirstPlate st.plates s
      (fun c => if ("out" == "in") = true then c + q else c - q)) s = p.quantity - q := by
    rw [plateQty_updateFirstPlate _ _ _ p hfp]
    rw [if_neg (by decide)]
  have hok : manual_adjustment st s q "out" notes = Except.ok
      { plates := updateFirstPlate st.plates s
          (fun c => if ("out" == "in") = true then c + q else c - q)
        inbound := st.inbound
        transactions := st.transactions ++ [⟨s, q, "out", "manual", none, some notes⟩] } := by
    unfold manual_adjustment
    simp only [hfp]
    rw [if_neg hcond]
  exact ⟨_, hok, hqty, by rw [hqty]; omega, rfl⟩

/-- Witness for C10: withdrawing -3 from a plate holding 5 leaves 8. -/
theorem negative_out_increases_stock_witness :
    ∃ st1, manual_adjustment ⟨[⟨"100x200", 5, 50⟩], [], []⟩ "100x200" (-3) "out" "" =
        Except.ok st1 ∧
      plateQty st1.plates "100x200" = 5 - (-3) ∧
      (5 : Int) < plateQty st1.plates "100x200" ∧
      st1.transactions = ([] : List Transaction) ++
        [⟨"100x200", -3, "out", "manual", none, some ""⟩] :=
  negative_out_increases_stock ⟨[⟨"100x200", 5, 50⟩], [], []⟩ "100x200" ""
    ⟨"100x200", 5, 50⟩ (-3) (by decide) (by decide) (by decide)

/-- Sentinel naming which validation check failed, used to state the claimed
validation order. -/
inductive CheckKind where
  | fieldCount
  | intParse
  | positivity
  | emptyPallet
  | sizeFormat
  | duplicateId
deriving DecidableEq

/-- Modelled from the spec claim: the first failing check when validation
runs in the claimed order (a) field count, (b) integer parse,
(c) positivity, (d) pallet id non-empty, (e) size format, (f) duplicate
pallet id (already stored, or seen earlier in the batch). -/
def claimedFirstFailure (st : Store) (seen : List String) (raw : String) :
    Option CheckKind :=
  match pySplit (strip raw) '|' with
  | [p0, p1, p2, p3] =>
    match pyInt? p1, pyInt? p2 with
    | some boxes, some ppb =>
      if boxes ≤ 0 ∨ ppb ≤ 0 then some CheckKind.positivity
      else if strip p3 = "" then some CheckKind.emptyPallet
      else if ¬ isSizeFormat (strip p0) = true then some CheckKind.sizeFormat
      else if (st.inbound.find? (fun d => d.batch_id == strip p3)).isSome ∨
          seen.contains (strip p3) = true then some CheckKind.duplicateId
      else none
    | _, _ => some CheckKind.intParse
  | _ => some CheckKind.fieldCount

/-- C2 counterexample: on the record 100x200|0|5| (four fields, integers
parse, box count zero, empty pallet id) the claimed order reports the
positivity failure first, but `process_qr` reports the empty-pallet-id
error, not the positivity error: the code checks (d) before (c). -/
theorem validation_order_counterexample :
    claimedFirstFailure ⟨[], [], []⟩ [] "100x200|0|5|" = some CheckKind.positivity ∧
    process_qr ⟨[], [], []⟩ "100x200|0|5|" =
      Except.error "UQID (pallet ID) cannot be empty" ∧
    process_qr ⟨[], [], []⟩ "100x200|0|5|" ≠
      Except.error "PQ and BQ must be positive numbers" := by
  refine ⟨by decide, by decide, by decide⟩

/-- The error message of a handler result (`none` when it succeeded). -/
def errMsg? : Except String Store → Option String
  | Except.ok _ => none
  | Except.error m => some m

/-- The reported message of a batch-import line outcome (`none` when the
line was skipped or imported). -/
def outcomeMsg? : LineOutcome → Option String
  | LineOutcome.skipped => none
  | LineOutcome.failed m => some m
  | LineOutcome.added _ _ => none

/-- The actual single-intake validation order, stated independently of
`process_qr`: (a) field count, (b) integer parse, (d) pallet id non-empty,
(c) positivity, (e) size format, (f) duplicate in the delivery store — with
the message each failure reports. -/
def qrFirstError (st : Store) (raw : String) : Option String :=
  match pySplit (strip raw) '|' with
  | [p0, p1, p2, p3] =>
    match pyInt? p1, pyInt? p2 with
    | some boxes, some ppb =>
      if strip p3 = "" then some "UQID (pallet ID) cannot be empty"
      else if boxes ≤ 0 ∨ ppb ≤ 0 then some "PQ and BQ must be positive numbers"
      else if ¬ isSizeFormat (strip p0) = true then
        some ("Invalid plate size format: " ++ strip p0)
      else if (st.inbound.find? (fun d => d.batch_id == strip p3)).isSome then
        some "Pallet ID already exists"
      else none
    | _, _ => some "PQ (boxes) and BQ (plates per box) must be numbers"
  | _ => some "Invalid pallet format"

/-- The actual batch-import validation order, stated independently of
`processLine`: (a) field count, (e) size format, (b) integer parse,
(c) positivity, then duplicate within the batch, then duplicate in the
store; no pallet-non-empty check exists on this path. -/
def csvFirstError (st : Store) (processed : List String) (n : Nat) (rawLine : String) :
    Option String :=
  match pySplit (strip rawLine) '|' with
  | [p0, p1, p2, p3] =>
    if ¬ isSizeFormat (strip p0) = true then
      some ("Line " ++ toString n ++ ": Invalid plate size format \x27" ++ strip p0 ++
        "\x27 - expected format like \x2776x254\x27")
    else
      match pyInt? (strip p1), pyInt? (strip p2) with
      | some boxes, some ppb =>
        if boxes ≤ 0 ∨ ppb ≤ 0 then
          some ("Line " ++ toString n ++ ": PQ and BQ must be positive numbers")
        else if processed.contains (strip p3) then
          some ("Line " ++ toString n ++ ": Duplicate UQID \x27" ++ strip p3 ++
            "\x27 in this import")
        else if (st.inbound.find? (fun d => d.batch_id == strip p3)).isSome then
          some ("Line " ++ toString n ++ ": UQID \x27" ++ strip p3 ++
            "\x27 already exists in database")
        else none
      | _, _ => some ("Line " ++ toString n ++ ": PQ and BQ must be numbers")
  | parts =>
    some ("Line " ++ toString n ++ ": Invalid format - expected 4 fields, got " ++
      toString parts.length)

/-- C2 (amended): validation short-circuits, but in the code order: single
intake checks field count, integer parse, pallet id non-empty, positivity,
size format, then duplicates; a batch-import line checks field count, size
format, integer parse, positivity, duplicate within the batch, then
duplicate in the store, and never checks pallet-id emptiness. The first
error reported is exactly the one these orders predict. -/
theorem validation_order_amended (st st2 : Store) (raw line : String)
    (processed : List String) (n : Nat)
    (hpipe : hasChar (strip raw) '|' = true)
    (hne : strip line ≠ "")
    (hnh : n = 1 → isHeader (strip line) = false) :
    errMsg? (process_qr st raw) = qrFirstError st raw ∧
    outcomeMsg? (processLine st2 processed n line) = csvFirstError st2 processed n line := by
  constructor
  · unfold process_qr qrFirstError
    rw [if_pos hpipe]
    rcases hs : pySplit (strip raw) '|' with _ | ⟨p0, _ | ⟨p1, _ | ⟨p2, _ | ⟨p3, _ | ⟨p4, t⟩⟩⟩⟩⟩ <;>
      try rfl
    cases hb : pyInt? p1 with
    | none => cases hp : pyInt? p2 <;> simp only [errMsg?, hb, hp]
    | some b1 =>
      cases hp : pyInt? p2 with
      | none => simp only [errMsg?, hb, hp]
      | some b2 =>
        simp only [hb, hp]
        split_ifs <;> rfl
  · unfold processLine csvFirstError
    rw [if_neg hne]
    rw [if_neg (by rintro ⟨h1, h2⟩; rw [hnh h1] at h2; exact absurd h2 (by simp))]
    rcases hs : pySplit (strip line) '|' with _ | ⟨p0, _ | ⟨p1, _ | ⟨p2, _ | ⟨p3, _ | ⟨p4, t⟩⟩⟩⟩⟩ <;>
      try rfl
    by_cases hsz : isSizeFormat (strip p0) = true
    · simp only []
      have hsz1 : ¬ (¬ isSizeFormat (strip p0) = true) := by simp [hsz]
      rw [if_neg hsz1, if_neg hsz1]
      cases hb : pyInt? (strip p1) with
      | none => cases hp : pyInt? (strip p2) <;> simp only [outcomeMsg?, hb, hp]
      | some b1 =>
        cases hp : pyInt? (strip p2) with
        | none => simp only [outcomeMsg?, hb, hp]
        | some b2 =>
          simp only [hb, hp]
          split_ifs <;> rfl
    · simp only []
      have hsz1 : ¬ isSizeFormat (strip p0) = true := by simp [hsz]
      rw [if_pos hsz1, if_pos hsz1]
      rfl

/-- Witness for C2 (amended) at a store with one stored delivery, a record
with an empty pallet id and a line with a bad integer field. -/
theorem validation_order_amended_witness :
    errMsg? (process_qr ⟨[], [⟨"100x200", 250, "P1", "pending", some 10, some 25⟩], []⟩
        "100x200|0|5|") =
      qrFirstError ⟨[], [⟨"100x200", 250, "P1", "pending", some 10, some 25⟩], []⟩
        "100x200|0|5|" ∧
    outcomeMsg? (processLine ⟨[], [⟨"100x200", 250, "P1", "pending", some 10, some 25⟩], []⟩
        ["P2"] 2 "200x300|ab|5|P1") =
      csvFirstError ⟨[], [⟨"100x200", 250, "P1", "pending", some 10, some 25⟩], []⟩
        ["P2"] 2 "200x300|ab|5|P1" :=
  validation_order_amended ⟨[], [⟨"100x200", 250, "P1", "pending", some 10, some 25⟩], []⟩
    ⟨[], [⟨"100x200", 250, "P1", "pending", some 10, some 25⟩], []⟩
    "100x200|0|5|" "200x300|ab|5|P1" ["P2"] 2
    (by decide) (by decide) (fun h => absurd h (by decide))

/-- Helper for C8: the error list collected by the import loop stays in
strictly increasing line-number order. -/
theorem importLines_errors_sorted (ls : List String) :
    ∀ (st : Store) (processed : List String) (imported : Nat)
      (errs : List (Nat × String)) (n : Nat),
      (∀ e ∈ errs, e.1 < n) →
      List.Pairwise (fun a b : Nat × String => a.1 < b.1) errs →
      List.Pairwise (fun a b : Nat × String => a.1 < b.1)
        (importLines st processed imported errs n ls).errors := by
  induction ls with
  | nil =>
    intro st processed imported errs n hbound hpw
    exact hpw
  | cons l rest ih =>
    intro st processed imported errs n hbound hpw
    unfold importLines
    cases hpl : processLine st processed n l with
    | skipped => exact ih _ _ _ _ _ (fun e he => Nat.lt_succ_of_lt (hbound e he)) hpw
    | failed msg =>
      refine ih _ _ _ _ _ ?_ ?_
      · intro e he
        rcases List.mem_append.mp he with h1 | h1
        · exact Nat.lt_succ_of_lt (hbound e h1)
        · rw [List.mem_singleton] at h1
          rw [h1]
          exact Nat.lt_succ_self n
      · rw [List.pairwise_append]
        refine ⟨hpw, List.pairwise_singleton _ _, ?_⟩
        intro a ha b hb
        rw [List.mem_singleton] at hb
        rw [hb]
        exact hbound a ha
    | added st1 pid => exact ih _ _ _ _ _ (fun e he => Nat.lt_succ_of_lt (hbound e he)) hpw

/-- C8: a batch import validates each line independently and continues past
per-line failures: the reported errors are (line number, message) pairs in
strictly increasing line order; on the three-line example whose second line
has a non-numeric box count it reports two imports and exactly one error
for line 2 and commits exactly the two valid pending deliveries; a literal
first-line header carrying the WxL and PQ column markers is skipped
silently while any other first line is processed. -/
theorem csv_import_report (st : Store) (csv : String) (r : ImportResult)
    (h : import_csv st csv = Except.ok r) :
    List.Pairwise (fun a b : Nat × String => a.1 < b.1) r.errors ∧
    import_csv ⟨[], [], []⟩ "100x200|10|25|P1\n200x300|ab|5|P2\n100x200|2|3|P3" =
      Except.ok ⟨⟨[⟨"100x200", 0, 50⟩],
        [⟨"100x200", 250, "P1", "pending", some 10, some 25⟩,
         ⟨"100x200", 6, "P3", "pending", some 2, some 3⟩], []⟩,
        2, [(2, "Line 2: PQ and BQ must be numbers")]⟩ ∧
    import_csv ⟨[], [], []⟩ "WxL|PQ|BQ|UQID\n100x200|1|2|P1" =
      Except.ok ⟨⟨[⟨"100x200", 0, 50⟩],
        [⟨"100x200", 2, "P1", "pending", some 1, some 2⟩], []⟩, 1, []⟩ := by
  refine ⟨?_, by decide, by decide⟩
  unfold import_csv at h
  by_cases hc : csv = ""
  · rw [if_pos hc] at h
    exact absurd h (by simp)
  · rw [if_neg hc] at h
    cases h
    exact importLines_errors_sorted _ _ _ _ _ _ (by simp) List.Pairwise.nil

/-- Witness for C8 at a one-line import. -/
theorem csv_import_report_witness :
    List.Pairwise (fun a b : Nat × String => a.1 < b.1)
      ((⟨⟨[⟨"100x200", 0, 50⟩],
        [⟨"100x200", 2, "P9", "pending", some 1, some 2⟩], []⟩, 1, []⟩ : ImportResult).errors) ∧
    import_csv ⟨[], [], []⟩ "100x200|10|25|P1\n200x300|ab|5|P2\n100x200|2|3|P3" =
      Except.ok ⟨⟨[⟨"100x200", 0, 50⟩],
        [⟨"100x200", 250, "P1", "pending", some 10, some 25⟩,
         ⟨"100x200", 6, "P3", "pending", some 2, some 3⟩], []⟩,
        2, [(2, "Line 2: PQ and BQ must be numbers")]⟩ ∧
    import_csv ⟨[], [], []⟩ "WxL|PQ|BQ|UQID\n100x200|1|2|P1" =
      Except.ok ⟨⟨[⟨"100x200", 0, 50⟩],
        [⟨"100x200", 2, "P1", "pending", some 1, some 2⟩], []⟩, 1, []⟩ :=
  csv_import_report ⟨[], [], []⟩ "100x200|1|2|P9"
    ⟨⟨[⟨"100x200", 0, 50⟩],
      [⟨"100x200", 2, "P9", "pending", some 1, some 2⟩], []⟩, 1, []⟩ (by decide)

end StorageApp
